import Mathlib

/-!
Verification of the live record-status broadcast subsystem of the Hydro
online judge (src/hydro/handler/record.ts): the list/detail connection
handlers, their visibility filtering, the detail update protocol, the
rejudge trigger, and the subscription lifecycle against the event bus.

Identifiers (ObjectID values, user ids, problem ids) are modelled as
naturals; `toString` comparisons between two id strings become equality
on the underlying ids.  Rendered HTML fragments are modelled as
structures carrying exactly the inputs handed to the template engine,
since `renderHTML` itself is an external template library.
-/

/-- Field mappings carried by an incremental `$set` / `$push` delta. -/
abbrev Mapping : Type := List (String × String)

/-- Optional contest association of a record: `rdoc.contest = {tid, type}`. -/
structure ContestAssoc where
  tid : Nat
  ctype : Int
deriving Repr, DecidableEq

/-- Record document (`Rdoc` in src/hydro/interface): judged submission state. -/
structure Rdoc where
  id : Nat
  uid : Nat
  pid : Nat
  contest : Option ContestAssoc
  hidden : Bool
  code : Option String
  status : String
deriving Repr, DecidableEq

/-- Problem document, as far as the broadcast pipeline reads it. -/
structure Pdoc where
  pid : Nat
  hidden : Bool
deriving Repr, DecidableEq

/-- User document, fetched per event for row rendering. -/
structure Udoc where
  uid : Nat
deriving Repr, DecidableEq

/-- Read-only snapshot of the document store visible to the handlers. -/
structure Store where
  records : List Rdoc
  problems : List Pdoc
  users : List Udoc
deriving Repr, DecidableEq

namespace Record

/-- Modelled from the spec: the record-store accessor `record.get(domainId, rid)`
(src/hydro/model/record is not part of the excerpt) — "fetch record by id",
returning `null` when no document matches. -/
def get (s : Store) (rid : Nat) : Option Rdoc :=
  s.records.find? (fun r => r.id == rid)

end Record

namespace Problem

/-- Modelled from the spec: `problem.get(domainId, pid, ...)` — "fetch problem
by id", returning `null` when absent. -/
def get (s : Store) (pid : Nat) : Option Pdoc :=
  s.problems.find? (fun p => p.pid == pid)

end Problem

namespace User

/-- Modelled from the spec: `user.getById(domainId, uid)` — "fetch user by id". -/
def getById (s : Store) (uid : Nat) : Option Udoc :=
  s.users.find? (fun u => u.uid == uid)

end User

/-- Viewer context of a request/connection: identity, permission bits, and the
contest-visibility oracle.  `canShowRecordAt tid isListContext` stands for the
mixin call `this.canShowRecord(tdoc, ...)` on the contest document with id
`tid`; per the spec the exact contest-type rules are an external collaborator,
so the decision is kept abstract. -/
structure Viewer where
  uid : Nat
  permViewProblemHidden : Bool
  permReadRecordCode : Bool
  permRejudge : Bool
  canShowRecordAt : Nat → Bool → Bool

/-- Inputs handed to `renderHTML('record_main_tr.html', {rdoc, udoc, pdoc})`. -/
structure MainTr where
  rdoc : Rdoc
  udoc : Option Udoc
  pdoc : Option Pdoc
deriving Repr, DecidableEq

/-- Inputs handed to `renderHTML('record_detail_status.html', {rdoc})`. -/
structure StatusView where
  rdoc : Rdoc
deriving Repr, DecidableEq

/-- Inputs handed to `renderHTML('record_detail_summary.html', {rdoc})`. -/
structure SummaryView where
  rdoc : Rdoc
deriving Repr, DecidableEq

/-- One outgoing transport message of a connection session. -/
inductive OutMsg where
  | row : MainTr → OutMsg
  | snapshot : StatusView → SummaryView → OutMsg
  | patch : Mapping → Option Mapping → OutMsg
deriving Repr, DecidableEq

/-- Payload of a `record_change` bus event as read by the handlers:
`data.value = {rdoc, $set?, $push?}` (`dset`/`dpush` stand for the `$set` and
`$push` components; `none` is an absent field). -/
structure ChangeValue where
  rdoc : Rdoc
  dset : Option Mapping
  dpush : Option Mapping
deriving Repr, DecidableEq

/-- Error conditions thrown by the request handlers
(src/hydro/error is not part of the excerpt; constructors follow the
spec's "not-found condition" and "permission condition"). -/
inductive HandlerError where
  | recordNotFound : Nat → HandlerError
  | permission : Nat → HandlerError
deriving Repr, DecidableEq

/-- The topic used by every subscription in record.ts. -/
def busTopic : String := "record_change"

/-- Modelled from the spec: the process-wide event bus registry
(src/hydro/service/bus is not part of the excerpt).  The bus owns a
subscription table keyed by topic; `next` is the source of fresh
subscription ids. -/
structure Bus where
  table : List (String × Nat)
  next : Nat
deriving Repr, DecidableEq

/-- Modelled from the spec: `bus.subscribe(topics, callback) -> subscriptionId`
registers the callback under every topic and returns a fresh id. -/
def Bus.subscribe (b : Bus) (topics : List String) : Bus × Nat :=
  ({ table := topics.map (fun t => (t, b.next)) ++ b.table, next := b.next + 1 }, b.next)

/-- Modelled from the spec: `bus.unsubscribe(topics, subscriptionId)` removes
the id's entries under the given topics.  The id is optional because
`cleanup` may run with `this.id` still `undefined` (session closed before
subscribing); that call removes nothing. -/
def Bus.unsubscribe (b : Bus) (topics : List String) (sid : Option Nat) : Bus :=
  { b with table := b.table.filter (fun e => !(topics.contains e.1 && sid == some e.2)) }

/-- Well-formedness of a bus: every id in the table was issued in the past. -/
def Bus.WF (b : Bus) : Prop := ∀ e ∈ b.table, e.2 < b.next

namespace RecordMainConn

/-- JavaScript semantics of `rdoc.contest.tid.toString() !== this.tid` being
FALSE (i.e. the event surviving the guard): with no filter `this.tid` is
`undefined`, and a string is never strictly equal to `undefined`, so the
comparison only succeeds when a filter is set and the ids agree. -/
def tidMatchesJs (filter : Option Nat) (ctid : Nat) : Bool :=
  match filter with
  | some t => ctid == t
  | none => false

/-- Outcome of `RecordMainConnectionHandler.prepare`: either the connection is
closed before subscribing (contest visibility failed), or the session is
subscribed holding filter `this.tid`. -/
inductive Prep where
  | unauthorized : Prep
  | subscribed : Option Nat → Prep
deriving Repr, DecidableEq

/-- `RecordMainConnectionHandler.prepare(domainId, tid)`: with a `tid`
argument, fetch the contest and check `canShowRecord`; on failure close
without subscribing, on success remember the filter and subscribe. -/
def prepare (v : Viewer) (tid : Option Nat) : Prep :=
  match tid with
  | some t => if v.canShowRecordAt t false then .subscribed (some t) else .unauthorized
  | none => .subscribed none

/-- Body of `RecordMainConnectionHandler.onRecordChange` after the
contest-filter guard: fetch user and problem documents, and either drop the
update (the `if (pdoc && pdoc.hidden && !perm)` branch nulls `pdoc` and,
having no fall-through to the send, transmits nothing) or send the rendered
row with the documents as fetched. -/
def fetchAndRow (v : Viewer) (s : Store) (rdoc : Rdoc) : Option OutMsg :=
  let udoc := User.getById s rdoc.uid
  let pdoc := Problem.get s rdoc.pid
  if (pdoc.map (fun p => p.hidden && !v.permViewProblemHidden)).getD false then
    none
  else
    some (OutMsg.row { rdoc := rdoc, udoc := udoc, pdoc := pdoc })

/-- `RecordMainConnectionHandler.onRecordChange(data)`: drop events failing
the contest-filter guard (`if (rdoc.contest && rdoc.contest.tid.toString()
!== this.tid) return;`), then run the fetch-and-send body.  Returns the
message sent, if any. -/
def onRecordChange (v : Viewer) (s : Store) (tid : Option Nat) (rdoc : Rdoc) :
    Option OutMsg :=
  match rdoc.contest with
  | some c =>
      if tidMatchesJs tid c.tid then
        fetchAndRow v s rdoc
      else none
  | none => fetchAndRow v s rdoc

/-- `RecordMainConnectionHandler.message(msg)` resync path: resolve each
requested id against the store and feed every found record through
`onRecordChange`, collecting the rows actually sent. -/
def message (v : Viewer) (s : Store) (tid : Option Nat) (rids : List Nat) :
    List OutMsg :=
  (s.records.filter (fun r => rids.contains r.id)).filterMap (onRecordChange v s tid)

/-- Full subscription lifecycle of a list session against the bus: `prepare`
(subscribing unless authorization closed the connection first) followed by
`cleanup`, which always runs `bus.unsubscribe(['record_change'], this.id)`.
Returns the final bus and the session's subscriber id, if it ever had one. -/
def run (v : Viewer) (tid : Option Nat) (b : Bus) : Bus × Option Nat :=
  let step : Bus × Option Nat :=
    match prepare v tid with
    | .subscribed _ =>
        let r := b.subscribe [busTopic]
        (r.1, some r.2)
    | .unauthorized => (b, none)
  (step.1.unsubscribe [busTopic] step.2, step.2)

end RecordMainConn

namespace RecordDetailConn

/-- Outcome of `RecordDetailConnectionHandler.prepare`: `typeErr` models the
uncaught TypeError raised by reading `rdoc.contest` when `record.get`
returned `null` (the code has no null check on this path); `unauthorized`
is the explicit close when contest visibility fails; `subscribed` carries
the fetched record from which the initial snapshot is synthesized. -/
inductive Prep where
  | typeErr : Prep
  | unauthorized : Prep
  | subscribed : Rdoc → Prep
deriving Repr, DecidableEq

/-- `RecordDetailConnectionHandler.prepare(domainId, rid)`: fetch the record
(crashing on a missing one), check contest visibility, then store
`this.rid`, subscribe, and synthesize the initial event. -/
def prepare (v : Viewer) (s : Store) (rid : Nat) : Prep :=
  match Record.get s rid with
  | none => .typeErr
  | some rdoc =>
      match rdoc.contest with
      | some c => if v.canShowRecordAt c.tid false then .subscribed rdoc else .unauthorized
      | none => .subscribed rdoc

/-- `RecordDetailConnectionHandler.onRecordChange(data)`: drop events for
other records; with a truthy `$set`, forward `{$set, $push}` as a single
patch; otherwise render and send the status and summary views. -/
def onRecordChange (rid : Nat) (data : ChangeValue) : Option OutMsg :=
  if data.rdoc.id != rid then none
  else
    match data.dset with
    | some m => some (OutMsg.patch m data.dpush)
    | none => some (OutMsg.snapshot { rdoc := data.rdoc } { rdoc := data.rdoc })

/-- Message trace of a detail session under sequential event delivery: the
messages emitted by `prepare` (the synthesized initial event) followed by
those emitted for each live bus event, in order.  A session that closed in
`prepare` was never subscribed and emits nothing. -/
def trace (v : Viewer) (s : Store) (rid : Nat) (live : List ChangeValue) :
    List OutMsg :=
  match prepare v s rid with
  | .subscribed rdoc =>
      (onRecordChange rid { rdoc := rdoc, dset := none, dpush := none }).toList
        ++ live.filterMap (onRecordChange rid)
  | _ => []

/-- Full subscription lifecycle of a detail session against the bus, mirroring
`RecordMainConn.run`: `prepare` (the TypeError path and the unauthorized
close both happen before `bus.subscribe`) followed by `cleanup`. -/
def run (v : Viewer) (s : Store) (rid : Nat) (b : Bus) : Bus × Option Nat :=
  let step : Bus × Option Nat :=
    match prepare v s rid with
    | .subscribed _ =>
        let r := b.subscribe [busTopic]
        (r.1, some r.2)
    | _ => (b, none)
  (step.1.unsubscribe [busTopic] step.2, step.2)

end RecordDetailConn

/-- Response body of the record detail page. -/
structure DetailBody where
  udoc : Option Udoc
  rdoc : Rdoc
  pdoc : Option Pdoc
deriving Repr, DecidableEq

namespace RecordDetailHandler

/-- `RecordDetailHandler.get(domainId, rid)`: throw `RecordNotFoundError` on a
missing record, `PermissionError` when contest visibility fails, scrub
`rdoc.code` for viewers who neither own the record nor hold
`PERM_READ_RECORD_CODE`, then respond with user, record and problem. -/
def get (v : Viewer) (s : Store) (rid : Nat) : Except HandlerError DetailBody :=
  match Record.get s rid with
  | none => .error (.recordNotFound rid)
  | some rdoc =>
      let authorized : Bool :=
        match rdoc.contest with
        | some c => v.canShowRecordAt c.tid true
        | none => true
      if !authorized then .error (.permission rid)
      else
        let rdoc1 :=
          if rdoc.uid != v.uid && !v.permReadRecordCode then
            { rdoc with code := none }
          else rdoc
        .ok { udoc := User.getById s rdoc1.uid
              rdoc := rdoc1
              pdoc := Problem.get s rdoc1.pid }

end RecordDetailHandler

/-- Side effects of the rejudge handler on the store / judging pipeline. -/
inductive RejudgeEffect where
  | reset : Nat → RejudgeEffect
  | judge : Nat → RejudgeEffect
deriving Repr, DecidableEq

namespace RecordRejudgeHandler

/-- `RecordRejudgeHandler.post(domainId, rid)`: check `PERM_REJUDGE`; if the
record exists, reset it and re-enqueue it for judging; finish with
`this.back()` either way.  The result lists the pipeline effects performed. -/
def post (v : Viewer) (s : Store) (rid : Nat) : Except HandlerError (List RejudgeEffect) :=
  if !v.permRejudge then .error (.permission rid)
  else
    match Record.get s rid with
    | some _ => .ok [.reset rid, .judge rid]
    | none => .ok []

end RecordRejudgeHandler

/-! Concrete documents, stores and viewers used to instantiate the theorems. -/

/-- A viewer with uid 10 holding none of the three permissions, whose
contest-visibility oracle always allows. -/
def exViewer : Viewer :=
  { uid := 10, permViewProblemHidden := false, permReadRecordCode := false
    permRejudge := false, canShowRecordAt := fun _ _ => true }

/-- The same viewer granted `PERM_REJUDGE`. -/
def exViewerRejudge : Viewer :=
  { uid := 10, permViewProblemHidden := false, permReadRecordCode := false
    permRejudge := true, canShowRecordAt := fun _ _ => true }

/-- A user document with uid 2. -/
def exUdoc : Udoc := { uid := 2 }

/-- A visible problem with pid 1. -/
def exPdoc : Pdoc := { pid := 1, hidden := false }

/-- A hidden problem with pid 9. -/
def exPdocHidden : Pdoc := { pid := 9, hidden := true }

/-- Record 7 by user 2 on problem 1, no contest association, code present. -/
def exRdoc : Rdoc :=
  { id := 7, uid := 2, pid := 1, contest := none, hidden := false
    code := some "secret", status := "AC" }

/-- Record 8 by user 2 on problem 1, associated to contest 3. -/
def exRdocContest : Rdoc :=
  { id := 8, uid := 2, pid := 1, contest := some { tid := 3, ctype := 0 }
    hidden := false, code := none, status := "AC" }

/-- Record 5 by user 2 on the hidden problem 9, no contest, code present. -/
def exRdocHidden : Rdoc :=
  { id := 5, uid := 2, pid := 9, contest := none, hidden := false
    code := some "secret", status := "AC" }

/-- A store holding records 7 and 8, problem 1 and user 2. -/
def exStore : Store := { records := [exRdoc, exRdocContest], problems := [exPdoc], users := [exUdoc] }

/-- A store holding record 5, the hidden problem 9 and user 2. -/
def exStoreHidden : Store :=
  { records := [exRdocHidden], problems := [exPdocHidden], users := [exUdoc] }

/-! Helper lemmas shared by the claim theorems. -/

/-- A fresh subscription followed by its scoped unsubscribe leaves no table
entry for the issued id, under any topic. -/
lemma scoped_unsub_clears (b : Bus) (hwf : Bus.WF b) (t : String) (i : Nat)
    (hi : (Bus.subscribe b [busTopic]).2 = i) :
    (t, i) ∉ (Bus.unsubscribe (Bus.subscribe b [busTopic]).1 [busTopic] (some i)).table := by
  subst hi
  intro hmem
  simp only [Bus.subscribe, Bus.unsubscribe, List.mem_filter, List.mem_append,
    List.map_cons, List.map_nil, List.mem_cons, List.not_mem_nil, or_false] at hmem
  obtain ⟨hin, hpred⟩ := hmem
  rcases hin with hin | hin
  · rw [Prod.mk.injEq] at hin
    simp [hin.1, busTopic, List.contains] at hpred
  · exact absurd (hwf _ hin) (by simp)

/-- A successful `prepare` of the detail connection returns exactly the stored
record with the requested id. -/
lemma detail_prepare_subscribed (v : Viewer) (s : Store) (rid : Nat) (rdoc : Rdoc)
    (h : RecordDetailConn.prepare v s rid = .subscribed rdoc) :
    Record.get s rid = some rdoc ∧ rdoc.id = rid := by
  cases hg : Record.get s rid with
  | none => simp [RecordDetailConn.prepare, hg] at h
  | some r =>
      simp only [RecordDetailConn.prepare, hg] at h
      have hr : r = rdoc := by
        cases hc : r.contest with
        | none => simpa [hc] using h
        | some c =>
            by_cases hshow : v.canShowRecordAt c.tid false
            · simpa [hc, hshow] using h
            · simp [hc, hshow] at h
      subst hr
      refine ⟨rfl, ?_⟩
      have hg2 : s.records.find? (fun x => x.id == rid) = some r := hg
      have hfind := List.find?_some hg2
      simpa using hfind

/-- Every row the list handler emits carries exactly the event's record. -/
lemma main_row_src (v : Viewer) (s : Store) (tid : Option Nat) (r : Rdoc) (m : OutMsg)
    (h : RecordMainConn.onRecordChange v s tid r = some m) :
    ∃ u p, m = OutMsg.row { rdoc := r, udoc := u, pdoc := p } := by
  unfold RecordMainConn.onRecordChange RecordMainConn.fetchAndRow at h
  cases hc : r.contest with
  | none =>
      simp only [hc] at h
      by_cases hh :
          ((Problem.get s r.pid).map (fun p => p.hidden && !v.permViewProblemHidden)).getD false
      · simp [hh] at h
      · simp [hh] at h
        exact ⟨_, _, h.symm⟩
  | some c =>
      simp only [hc] at h
      by_cases hm : RecordMainConn.tidMatchesJs tid c.tid
      · by_cases hh :
            ((Problem.get s r.pid).map (fun p => p.hidden && !v.permViewProblemHidden)).getD false
        · simp [hm, hh] at h
        · simp [hm, hh] at h
          exact ⟨_, _, h.symm⟩
      · simp [hm] at h

/-! Claim theorems. -/

/-- C1: every connection session (list or detail) that reaches the closed
state, normally or via an error path, leaves the event-bus subscription table
with no entry for that session's subscriber id: each code path that created a
subscription is matched by the unconditional unsubscribe in `cleanup`. -/
theorem close_clears_subscription_table
    (b : Bus) (v : Viewer) (s : Store) (tid : Option Nat) (rid : Nat)
    (t : String) (i : Nat) (hwf : Bus.WF b) :
    ((RecordMainConn.run v tid b).2 = some i →
      (t, i) ∉ (RecordMainConn.run v tid b).1.table) ∧
    ((RecordDetailConn.run v s rid b).2 = some i →
      (t, i) ∉ (RecordDetailConn.run v s rid b).1.table) := by
  constructor
  · intro h
    cases hp : RecordMainConn.prepare v tid with
    | unauthorized =>
        rw [RecordMainConn.run] at h
        simp [hp] at h
    | subscribed f =>
        rw [RecordMainConn.run] at h ⊢
        simp only [hp] at h ⊢
        have hi := Option.some_inj.mp h
        rw [hi]
        exact scoped_unsub_clears b hwf t i hi
  · intro h
    cases hp : RecordDetailConn.prepare v s rid with
    | typeErr =>
        rw [RecordDetailConn.run] at h
        simp [hp] at h
    | unauthorized =>
        rw [RecordDetailConn.run] at h
        simp [hp] at h
    | subscribed r =>
        rw [RecordDetailConn.run] at h ⊢
        simp only [hp] at h ⊢
        have hi := Option.some_inj.mp h
        rw [hi]
        exact scoped_unsub_clears b hwf t i hi

/-- Witness for C1: on an empty bus, a list session with no filter and a
detail session on record 7 both subscribe as id 0, and after cleanup the
table holds no entry for id 0. -/
theorem close_clears_subscription_table_witness :
    Bus.WF { table := [], next := 0 } ∧
    ("record_change", 0) ∉ (RecordMainConn.run exViewer none { table := [], next := 0 }).1.table ∧
    ("record_change", 0) ∉
      (RecordDetailConn.run exViewer exStore 7 { table := [], next := 0 }).1.table := by
  have hwf : Bus.WF { table := [], next := 0 } := by
    intro e he
    simp at he
  have h := close_clears_subscription_table { table := [], next := 0 }
    exViewer exStore none 7 "record_change" 0 hwf
  exact ⟨hwf, h.1 (by decide), h.2 (by decide)⟩

/-- C4: a detail session that passes authorization emits exactly one initial
full-snapshot message (status render and summary render of the fetched
record) as its first message, before any message derived from a live bus
event — in particular its trace with no live events is that one snapshot. -/
theorem initial_snapshot_first
    (v : Viewer) (s : Store) (rid : Nat) (rdoc : Rdoc) (live : List ChangeValue)
    (h : RecordDetailConn.prepare v s rid = .subscribed rdoc) :
    RecordDetailConn.trace v s rid live =
      OutMsg.snapshot { rdoc := rdoc } { rdoc := rdoc }
        :: live.filterMap (RecordDetailConn.onRecordChange rid) := by
  have hid := (detail_prepare_subscribed v s rid rdoc h).2
  rw [RecordDetailConn.trace]
  simp [h, RecordDetailConn.onRecordChange, hid]

/-- Witness for C4: the detail session on record 7 over `exStore` subscribes
and its no-live-event trace is exactly the one initial snapshot. -/
theorem initial_snapshot_first_witness :
    RecordDetailConn.prepare exViewer exStore 7 = .subscribed exRdoc ∧
    RecordDetailConn.trace exViewer exStore 7 [] =
      [OutMsg.snapshot { rdoc := exRdoc } { rdoc := exRdoc }] := by
  have h := initial_snapshot_first exViewer exStore 7 exRdoc [] (by decide)
  exact ⟨by decide, by simpa using h⟩

/-- C5: for a detail session and a bus event for its target record, an event
carrying a field delta (both `$set` and `$push` components, per the change
event contract) produces exactly one incremental patch message equal to the
delta and no re-render, while an event carrying no delta produces the
two-part render of status and summary views. -/
theorem delta_patch_protocol (rid : Nat) (d : ChangeValue) (hid : d.rdoc.id = rid) :
    (∀ m1 m2, d.dset = some m1 → d.dpush = some m2 →
      RecordDetailConn.onRecordChange rid d = some (OutMsg.patch m1 (some m2))) ∧
    (d.dset = none → d.dpush = none →
      RecordDetailConn.onRecordChange rid d =
        some (OutMsg.snapshot { rdoc := d.rdoc } { rdoc := d.rdoc })) := by
  constructor
  · intro m1 m2 hset hpush
    rw [RecordDetailConn.onRecordChange]
    simp [hid, hset, hpush]
  · intro hset hpush
    rw [RecordDetailConn.onRecordChange]
    simp [hid, hset]

/-- Witness for C5: the scenario of the spec — record 7 updated with delta
`{set: {status: AC}, push: {}}` yields the single patch message. -/
theorem delta_patch_protocol_witness :
    exRdoc.id = 7 ∧
    RecordDetailConn.onRecordChange 7
        { rdoc := exRdoc, dset := some [("status", "AC")], dpush := some [] } =
      some (OutMsg.patch [("status", "AC")] (some [])) := by
  refine ⟨rfl, ?_⟩
  exact (delta_patch_protocol 7
    { rdoc := exRdoc, dset := some [("status", "AC")], dpush := some [] } rfl).1 _ _ rfl rfl

/-- C10: the detail handler's choice between patch and re-render is decided
solely by the presence of the `$set` component: with `$set` absent the event
triggers the full two-part re-render regardless of `$push`, and with `$set`
present the patch forwards `$push` as-is, even when `$push` is absent. -/
theorem detail_branch_on_set_presence (rid : Nat) (d : ChangeValue) (hid : d.rdoc.id = rid) :
    (d.dset = none →
      RecordDetailConn.onRecordChange rid d =
        some (OutMsg.snapshot { rdoc := d.rdoc } { rdoc := d.rdoc })) ∧
    (∀ m, d.dset = some m →
      RecordDetailConn.onRecordChange rid d = some (OutMsg.patch m d.dpush)) := by
  constructor
  · intro hset
    rw [RecordDetailConn.onRecordChange]
    simp [hid, hset]
  · intro m hset
    rw [RecordDetailConn.onRecordChange]
    simp [hid, hset]

/-- Witness for C10: a push-only event (`$set` absent, `$push` present) for
record 7 triggers the full snapshot re-render, not a patch. -/
theorem detail_branch_on_set_presence_witness :
    exRdoc.id = 7 ∧
    RecordDetailConn.onRecordChange 7
        { rdoc := exRdoc, dset := none, dpush := some [("case", "1")] } =
      some (OutMsg.snapshot { rdoc := exRdoc } { rdoc := exRdoc }) := by
  refine ⟨rfl, ?_⟩
  exact (detail_branch_on_set_presence 7
    { rdoc := exRdoc, dset := none, dpush := some [("case", "1")] } rfl).1 rfl

/-- C7: a rejudge request by a privileged viewer for a record id absent from
the store completes successfully as a no-op — no state reset, no enqueue to
the judging pipeline (hence nothing for the pipeline to publish), no error. -/
theorem rejudge_missing_record_noop (v : Viewer) (s : Store) (rid : Nat)
    (hperm : v.permRejudge = true) (hmiss : Record.get s rid = none) :
    RecordRejudgeHandler.post v s rid = .ok [] := by
  rw [RecordRejudgeHandler.post]
  simp [hperm, hmiss]

/-- Witness for C7: rejudging the nonexistent record 99 succeeds with no
pipeline effects. -/
theorem rejudge_missing_record_noop_witness :
    exViewerRejudge.permRejudge = true ∧ Record.get exStore 99 = none ∧
    RecordRejudgeHandler.post exViewerRejudge exStore 99 = .ok [] :=
  ⟨rfl, by decide,
    rejudge_missing_record_noop exViewerRejudge exStore 99 rfl (by decide)⟩

/-- C9: a list session opened with no contest filter drops every event whose
record carries a contest association (the JavaScript guard compares an id
string against `undefined`, which never matches), so an unfiltered session
only ever emits rows for records with no contest association. -/
theorem unfiltered_session_drops_contest_records (v : Viewer) (s : Store) (r : Rdoc)
    (a : ContestAssoc) (h : r.contest = some a) :
    RecordMainConn.onRecordChange v s none r = none := by
  rw [RecordMainConn.onRecordChange]
  simp [h, RecordMainConn.tidMatchesJs]

/-- Witness for C9: the unfiltered session drops the update for record 8,
which is associated to contest 3. -/
theorem unfiltered_session_drops_contest_records_witness :
    exRdocContest.contest = some { tid := 3, ctype := 0 } ∧
    RecordMainConn.onRecordChange exViewer exStore none exRdocContest = none :=
  ⟨rfl, unfiltered_session_drops_contest_records exViewer exStore exRdocContest
    { tid := 3, ctype := 0 } rfl⟩

/-- Counterexample to C2 as stated: a list session filtered to contest 1
sends the row for record 7, which has no contest association — the guard
`rdoc.contest && rdoc.contest.tid.toString() !== this.tid` passes any
contest-less record through to filtered sessions as well. -/
theorem filtered_session_sends_contestless_row :
    exRdoc.contest = none ∧
    RecordMainConn.onRecordChange exViewer exStore (some 1) exRdoc =
      some (OutMsg.row { rdoc := exRdoc, udoc := some exUdoc, pdoc := some exPdoc }) := by
  constructor
  · rfl
  · decide

/-- C2 amended: a list session filtered to contest `C` never sends a row for
a record whose contest association is present with a different id; a record
with no contest association, however, is handled identically by filtered and
unfiltered sessions (it is not reserved to unfiltered ones). -/
theorem list_filter_drops_mismatched_contest
    (v : Viewer) (s : Store) (c : Nat) (r : Rdoc) :
    (∀ a, r.contest = some a → a.tid ≠ c →
      RecordMainConn.onRecordChange v s (some c) r = none) ∧
    (r.contest = none →
      RecordMainConn.onRecordChange v s (some c) r =
        RecordMainConn.onRecordChange v s none r) := by
  constructor
  · intro a ha hne
    rw [RecordMainConn.onRecordChange]
    simp [ha, RecordMainConn.tidMatchesJs, hne]
  · intro hnone
    rw [RecordMainConn.onRecordChange, RecordMainConn.onRecordChange]
    simp [hnone]

/-- Witness for amended C2: the session filtered to contest 1 drops the
update for record 8, which belongs to contest 3. -/
theorem list_filter_drops_mismatched_contest_witness :
    exRdocContest.contest = some { tid := 3, ctype := 0 } ∧ (3 : Nat) ≠ 1 ∧
    RecordMainConn.onRecordChange exViewer exStore (some 1) exRdocContest = none :=
  ⟨rfl, by decide,
    (list_filter_drops_mismatched_contest exViewer exStore 1 exRdocContest).1
      { tid := 3, ctype := 0 } rfl (by decide)⟩

/-- Counterexample to C3 as stated: a viewer who neither owns record 7 nor
holds the code-read permission still receives the record's non-null code in
the detail connection's initial snapshot — the scrub exists only on the
detail page render. -/
theorem detail_snapshot_leaks_code :
    exRdoc.uid ≠ exViewer.uid ∧ exViewer.permReadRecordCode = false ∧
    RecordDetailConn.trace exViewer exStore 7 [] =
      [OutMsg.snapshot { rdoc := exRdoc } { rdoc := exRdoc }] ∧
    exRdoc.code = some "secret" := by
  refine ⟨by decide, rfl, ?_, rfl⟩
  decide

/-- C3 amended: the code scrub is applied only on the detail page render —
there, a viewer who is not the record's owner and lacks the code-read
permission always receives a null code field; the connection egress paths
(detail snapshot, incremental patch, list row) transmit the record and delta
without scrubbing. -/
theorem detail_page_scrubs_code (v : Viewer) (s : Store) (rid : Nat) (r : Rdoc)
    (hget : Record.get s rid = some r) (hown : r.uid ≠ v.uid)
    (hperm : v.permReadRecordCode = false) :
    ∀ b, RecordDetailHandler.get v s rid = .ok b → b.rdoc.code = none := by
  intro b hb
  rw [RecordDetailHandler.get] at hb
  rw [hget] at hb
  by_cases hauth : (match r.contest with
    | some c => v.canShowRecordAt c.tid true
    | none => true)
  · simp only [hauth, Bool.not_true, if_neg] at hb
    have hbne : (r.uid != v.uid) = true := by
      simp [bne_iff_ne, hown]
    simp [hbne, hperm] at hb
    rw [← hb]
  · simp [hauth] at hb

/-- Witness for amended C3: fetching record 7's detail page as a non-owner
without the code-read permission yields a body whose code field is null. -/
theorem detail_page_scrubs_code_witness :
    Record.get exStore 7 = some exRdoc ∧ exRdoc.uid ≠ exViewer.uid ∧
    exViewer.permReadRecordCode = false ∧
    ({ udoc := some exUdoc, rdoc := { exRdoc with code := none }
       pdoc := some exPdoc } : DetailBody).rdoc.code = none :=
  ⟨by decide, by decide, rfl,
    detail_page_scrubs_code exViewer exStore 7 exRdoc (by decide) (by decide) rfl
      { udoc := some exUdoc, rdoc := { exRdoc with code := none }, pdoc := some exPdoc }
      (by rfl)⟩

/-- Counterexample to C6 as stated: record 5 is tied to the hidden problem 9
and the viewer lacks the hidden-problem permission, yet the detail connection
sends its full snapshot — the hidden-problem gate exists only on the list
connection's handler. -/
theorem detail_trace_leaks_hidden_problem :
    Problem.get exStoreHidden exRdocHidden.pid = some exPdocHidden ∧
    exPdocHidden.hidden = true ∧
    exViewer.permViewProblemHidden = false ∧
    RecordDetailConn.trace exViewer exStoreHidden 5 [] =
      [OutMsg.snapshot { rdoc := exRdocHidden } { rdoc := exRdocHidden }] := by
  refine ⟨by decide, rfl, rfl, by decide⟩

/-- C6 amended: on the list connection, an update for a record whose problem
is hidden is dropped entirely for a viewer lacking the hidden-problem
permission, both for live events and for resync requests; the detail paths
perform no hidden-problem check, so detail payloads are not covered. -/
theorem list_drops_hidden_problem (v : Viewer) (s : Store) (f : Option Nat)
    (r : Rdoc) (p : Pdoc) (hp : Problem.get s r.pid = some p) (hh : p.hidden = true)
    (hv : v.permViewProblemHidden = false) :
    RecordMainConn.onRecordChange v s f r = none ∧
    ∀ rids m, m ∈ RecordMainConn.message v s f rids →
      ∀ tr : MainTr, m = OutMsg.row tr → tr.rdoc ≠ r := by
  have hdrop : RecordMainConn.fetchAndRow v s r = none := by
    rw [RecordMainConn.fetchAndRow]
    simp [hp, hh, hv]
  have h1 : RecordMainConn.onRecordChange v s f r = none := by
    rw [RecordMainConn.onRecordChange]
    cases hc : r.contest with
    | none => simp [hc, hdrop]
    | some c =>
        by_cases hm : RecordMainConn.tidMatchesJs f c.tid
        · simp [hc, hm, hdrop]
        · simp [hc, hm]
  refine ⟨h1, ?_⟩
  intro rids m hm tr hrow hrr
  subst hrow
  rw [RecordMainConn.message] at hm
  obtain ⟨r2, _hmem, hr2⟩ := List.mem_filterMap.mp hm
  obtain ⟨u, pd, heq⟩ := main_row_src v s f r2 _ hr2
  have htr : tr = { rdoc := r2, udoc := u, pdoc := pd } := by
    injection heq with h
  have hr2r : r2 = r := by
    rw [htr] at hrr
    simpa using hrr
  rw [hr2r, h1] at hr2
  exact Option.noConfusion hr2

/-- Witness for amended C6: the list session drops the live update for
record 5, tied to hidden problem 9, for the unprivileged viewer. -/
theorem list_drops_hidden_problem_witness :
    Problem.get exStoreHidden exRdocHidden.pid = some exPdocHidden ∧
    exPdocHidden.hidden = true ∧ exViewer.permViewProblemHidden = false ∧
    RecordMainConn.onRecordChange exViewer exStoreHidden none exRdocHidden = none :=
  ⟨by decide, rfl, rfl,
    (list_drops_hidden_problem exViewer exStoreHidden none exRdocHidden exPdocHidden
      (by decide) rfl rfl).1⟩

/-- C8, evaluated at the failing input: for record id 99 absent from the
store, the detail page handler signals the not-found condition (distinct
from the permission condition), but the detail connection's `prepare`, which
reads `rdoc.contest` without a null check, aborts with a TypeError instead
of a not-found condition — though still before any subscription is created,
leaving the bus table untouched. -/
theorem detail_conn_missing_record_type_error :
    Record.get exStore 99 = none ∧
    RecordDetailHandler.get exViewer exStore 99 =
      .error (HandlerError.recordNotFound 99) ∧
    HandlerError.recordNotFound 99 ≠ HandlerError.permission 99 ∧
    RecordDetailConn.prepare exViewer exStore 99 = .typeErr ∧
    RecordDetailConn.run exViewer exStore 99 { table := [], next := 0 } =
      ({ table := [], next := 0 }, none) :=
  ⟨by decide, by rfl, by decide, by decide, by decide⟩
